import Mathlib

/-!
# Verification of the RotaryEncoder quadrature decoder

Shallow embedding of `src/RotaryEncoder.h` / `src/RotaryEncoder.cpp`
(Matthias Hertel's rotary-encoder library, as adapted in this repository).

Modelling conventions:

* The two pin reads inside `tick()` (`digitalRead(_u08Pin1)`,
  `digitalRead(_u08Pin2)`, combined as `sig1 | (sig2 << 1)`) produce a 2-bit
  value 0..3; the combined sample is passed to the model's `tick` as a
  `Fin 4` argument.  The pin numbers themselves and the `pinMode` calls are
  pure I/O configuration and carry no decoding logic, so they are not part
  of the state.
* `millis()` is an external monotonic `uint32` clock; the model's `tick`
  takes the clock reading as a `Nat` argument and stores it reduced
  mod 2^32, which is exactly the value range of the C `uint32_t`.
* `int32_t` values are represented as `Int` together with the explicit
  two's-complement wrap `i32wrap` applied wherever the C code performs
  arithmetic that can overflow (`_i32Position += …`, `newPosition << 2`).
* `_i08OldState` only ever holds a value in 0..3 (initialised to 3 and
  subsequently only assigned `thisState`, which is a 2-bit value), so it is
  modelled as `Fin 4`.
* The C arithmetic shift `>> k` on a (in-range) two's-complement `int32_t`
  is floor division by `2^k`, which is Lean's `Int` division `/` by `2^k`.
* In `setPosition`, the C expression `(newPosition << 2) | (_i32Position & 0x03)`
  ORs a value whose two low bits are zero with a value in 0..3, so the OR is
  addition, and `x & 3` on two's complement equals the nonnegative remainder
  `x % 4`; likewise for the `TWO03` case with `<< 1` / `& 0x01` / `% 2`.
-/

/-- `RotaryEncoder::Direction` from `RotaryEncoder.h`. -/
inductive Direction where
  | NOROTATION
  | CLOCKWISE
  | COUNTERCLOCKWISE
deriving DecidableEq, Repr

/-- `RotaryEncoder::LatchMode` from `RotaryEncoder.h`:
FOUR3 = 4 steps, latch at raw state 3; FOUR0 = 4 steps, latch at raw state 0;
TWO03 = 2 steps, latch at raw states 0 and 3. -/
inductive LatchMode where
  | FOUR3
  | FOUR0
  | TWO03
deriving DecidableEq, Repr

/-- The transition table `ci08KNOBDIR` of `RotaryEncoder.cpp`:
`{0, -1, 1, 0,  1, 0, 0, -1,  -1, 0, 0, 1,  0, 1, -1, 0}`,
indexed by `thisState | (oldState << 2)`.  The `int8_t` entries are
represented as `Int`; indices ≥ 16 never occur (the index is built from two
2-bit values) and default to 0. -/
def ci08KNOBDIR (key : Nat) : Int :=
  match key with
  | 0 => 0 | 1 => -1 | 2 => 1 | 3 => 0
  | 4 => 1 | 5 => 0 | 6 => 0 | 7 => -1
  | 8 => -1 | 9 => 0 | 10 => 0 | 11 => 1
  | 12 => 0 | 13 => 1 | 14 => -1 | 15 => 0
  | _ => 0

/-- Two's-complement wrap of an unbounded integer into the `int32_t` range
`[-2^31, 2^31)`. -/
def i32wrap (x : Int) : Int :=
  (x + 2147483648) % 4294967296 - 2147483648

/-- Arithmetic (sign-preserving) right shift of an in-range `int32_t` value:
the C `x >> k`.  Lean's `Int` division is floor division, which on the
`int32_t` range agrees with the arithmetic shift. -/
def asr (x : Int) (k : Nat) : Int :=
  x / 2 ^ k

/-- The mutable state of a `RotaryEncoder` instance (`RotaryEncoder.h`,
private section), minus the two pin numbers, which carry no logic. -/
structure RotaryEncoder where
  eMode : LatchMode
  i08OldState : Fin 4
  i32Position : Int
  i32PositionExt : Int
  i32PositionExtPrev : Int
  u32PositionExtTime : Nat
  u32PositionExtTimePrev : Nat
deriving DecidableEq, Repr

/-- The constructor `RotaryEncoder::RotaryEncoder`: `rawState = 3`, all
positions 0.  The C++ constructor leaves the two timestamps uninitialised;
the spec fixes them to 0 (clock epoch), which we adopt. -/
def RotaryEncoder.init (mode : LatchMode) : RotaryEncoder :=
  { eMode := mode
    i08OldState := 3
    i32Position := 0
    i32PositionExt := 0
    i32PositionExtPrev := 0
    u32PositionExtTime := 0
    u32PositionExtTimePrev := 0 }

/-- `RotaryEncoder::getPosition`: returns `_i32PositionExt`. -/
def RotaryEncoder.getPosition (e : RotaryEncoder) : Int :=
  e.i32PositionExt

/-- `RotaryEncoder::getDirection`: compares `_i32PositionExtPrev` with
`_i32PositionExt`, and in every branch stores `_i32PositionExt` into
`_i32PositionExtPrev`.  Returns the direction together with the updated
state. -/
def RotaryEncoder.getDirection (e : RotaryEncoder) : Direction × RotaryEncoder :=
  if e.i32PositionExtPrev > e.i32PositionExt then
    (Direction.COUNTERCLOCKWISE, { e with i32PositionExtPrev := e.i32PositionExt })
  else if e.i32PositionExtPrev < e.i32PositionExt then
    (Direction.CLOCKWISE, { e with i32PositionExtPrev := e.i32PositionExt })
  else
    (Direction.NOROTATION, { e with i32PositionExtPrev := e.i32PositionExt })

/-- `RotaryEncoder::setPosition`: in the FOUR modes
`_i32Position = (newPosition << 2) | (_i32Position & 0x03)` (the OR is
addition because the shifted value has zero low bits, and `& 3` is `% 4`);
in the TWO mode the shift is 1 and the mask `0x01`.  Both external positions
are set to `newPosition`; the timestamps are untouched. -/
def RotaryEncoder.setPosition (e : RotaryEncoder) (newPosition : Int) : RotaryEncoder :=
  match e.eMode with
  | LatchMode.FOUR3 | LatchMode.FOUR0 =>
      { e with
        i32Position := i32wrap (newPosition * 4) + e.i32Position % 4
        i32PositionExt := newPosition
        i32PositionExtPrev := newPosition }
  | LatchMode.TWO03 =>
      { e with
        i32Position := i32wrap (newPosition * 2) + e.i32Position % 2
        i32PositionExt := newPosition
        i32PositionExtPrev := newPosition }

/-- `RotaryEncoder::tick`.  `thisState` is the freshly sampled 2-bit pin
state `sig1 | (sig2 << 1)`; `now` is the `millis()` reading.  If the state
changed, the table delta at index `thisState | (oldState << 2)` is added to
`_i32Position` (with native `int32` wraparound); then, if the new state
satisfies the mode's latch condition, `_i32PositionExt` is recomputed as the
arithmetic shift of `_i32Position` and the timestamp history is shifted;
finally `_i08OldState := thisState`. -/
def RotaryEncoder.tick (e : RotaryEncoder) (thisState : Fin 4) (now : Nat) : RotaryEncoder :=
  if e.i08OldState ≠ thisState then
    let pos := i32wrap (e.i32Position + ci08KNOBDIR (thisState.val ||| (e.i08OldState.val <<< 2)))
    let e1 : RotaryEncoder :=
      match e.eMode with
      | LatchMode.FOUR3 =>
          if thisState = 3 then
            { e with
              i32Position := pos
              i32PositionExt := asr pos 2
              u32PositionExtTimePrev := e.u32PositionExtTime
              u32PositionExtTime := now % 4294967296 }
          else { e with i32Position := pos }
      | LatchMode.FOUR0 =>
          if thisState = 0 then
            { e with
              i32Position := pos
              i32PositionExt := asr pos 2
              u32PositionExtTimePrev := e.u32PositionExtTime
              u32PositionExtTime := now % 4294967296 }
          else { e with i32Position := pos }
      | LatchMode.TWO03 =>
          if thisState = 0 ∨ thisState = 3 then
            { e with
              i32Position := pos
              i32PositionExt := asr pos 1
              u32PositionExtTimePrev := e.u32PositionExtTime
              u32PositionExtTime := now % 4294967296 }
          else { e with i32Position := pos }
    { e1 with i08OldState := thisState }
  else
    e

/-- `RotaryEncoder::getMillisBetweenRotations`: the `uint32` subtraction
`_u32PositionExtTime - _u32PositionExtTimePrev`, i.e. the difference
mod 2^32 (both stored timestamps are < 2^32). -/
def RotaryEncoder.getMillisBetweenRotations (e : RotaryEncoder) : Nat :=
  (e.u32PositionExtTime + 4294967296 - e.u32PositionExtTimePrev) % 4294967296

/-- The latch predicate the `switch` in `tick()` tests against the new
state: FOUR3 latches at 3, FOUR0 at 0, TWO03 at 0 and 3. -/
def isLatchState (mode : LatchMode) (s : Fin 4) : Bool :=
  match mode with
  | LatchMode.FOUR3 => s = 3
  | LatchMode.FOUR0 => s = 0
  | LatchMode.TWO03 => s = 0 ∨ s = 3

/-- The mode's shift amount between internal and external position:
2 for the FOUR modes, 1 for TWO03. -/
def latchShift (mode : LatchMode) : Nat :=
  match mode with
  | LatchMode.FOUR3 => 2
  | LatchMode.FOUR0 => 2
  | LatchMode.TWO03 => 1

/-- A single-bit quadrature step: the two 2-bit states differ in exactly
one of the two pin bits. -/
def validStep (p q : Fin 4) : Prop :=
  p.val ^^^ q.val = 1 ∨ p.val ^^^ q.val = 2

instance (p q : Fin 4) : Decidable (validStep p q) := by
  unfold validStep; infer_instance

/-- C1: whenever the sampled state differs from the stored raw state,
`tick()` changes `internalPosition` by exactly the transition-table delta at
index `curState | (rawState << 2)` (equivalently `curState + 4 * rawState`),
modulo the native `int32` wraparound, and by nothing else. -/
theorem tick_position_delta (e : RotaryEncoder) (c : Fin 4) (t : Nat)
    (h : c ≠ e.i08OldState) :
    (e.tick c t).i32Position
      = i32wrap (e.i32Position + ci08KNOBDIR (c.val + 4 * e.i08OldState.val)) := by
  have hidx : c.val ||| (e.i08OldState.val <<< 2) = c.val + 4 * e.i08OldState.val := by
    have hc := c.isLt
    have ho := e.i08OldState.isLt
    interval_cases h1 : c.val <;> interval_cases h2 : e.i08OldState.val <;> rfl
  unfold RotaryEncoder.tick
  rw [if_pos (by exact fun hh => h hh.symm)]
  rw [hidx]
  rcases e.eMode with _ | _ | _ <;> simp only [] <;>
    split <;> rfl

/-- Witness for C1 at a concrete input: one tick from the initial FOUR0
state with sample 2. -/
theorem tick_position_delta_witness :
    ((RotaryEncoder.init LatchMode.FOUR0).tick 2 0).i32Position
      = i32wrap ((RotaryEncoder.init LatchMode.FOUR0).i32Position
          + ci08KNOBDIR (2 + 4 * 3)) := by
  have h := tick_position_delta (RotaryEncoder.init LatchMode.FOUR0) 2 0 (by decide)
  simpa using h

/-- C5: a `tick()` whose sampled state equals the stored raw state changes
nothing at all: the resulting state is the input state. -/
theorem tick_same_state_noop (e : RotaryEncoder) (c : Fin 4) (t : Nat)
    (h : c = e.i08OldState) :
    e.tick c t = e := by
  unfold RotaryEncoder.tick
  rw [if_neg]
  simp [h]

/-- Witness for C5: sampling state 3 in the freshly constructed decoder
(whose raw state is 3) is a no-op. -/
theorem tick_same_state_noop_witness :
    (RotaryEncoder.init LatchMode.FOUR0).tick 3 17 = RotaryEncoder.init LatchMode.FOUR0 :=
  tick_same_state_noop (RotaryEncoder.init LatchMode.FOUR0) 3 17 (by decide)

/-- Auxiliary numeral facts for the mode shifts. -/
theorem int_two_pow_two : ((2 : Int) ^ (2 : Nat)) = 4 := by norm_num

theorem int_two_pow_one : ((2 : Int) ^ (1 : Nat)) = 2 := by norm_num

/-- C3: `getDirection()` returns CLOCKWISE exactly when the external
position grew since the previous direction query, COUNTERCLOCKWISE exactly
when it shrank, NOROTATION exactly when it is unchanged; in every branch it
stores `externalPosition` into `previousExternalPosition` and mutates no
other field; consequently a second consecutive call returns NOROTATION. -/
theorem getDirection_spec (e : RotaryEncoder) :
    ((e.getDirection).1 = Direction.CLOCKWISE ↔ e.i32PositionExtPrev < e.i32PositionExt)
    ∧ ((e.getDirection).1 = Direction.COUNTERCLOCKWISE ↔ e.i32PositionExt < e.i32PositionExtPrev)
    ∧ ((e.getDirection).1 = Direction.NOROTATION ↔ e.i32PositionExtPrev = e.i32PositionExt)
    ∧ (e.getDirection).2.i32PositionExtPrev = e.i32PositionExt
    ∧ (e.getDirection).2.i32PositionExt = e.i32PositionExt
    ∧ (e.getDirection).2.i32Position = e.i32Position
    ∧ (e.getDirection).2.i08OldState = e.i08OldState
    ∧ (e.getDirection).2.eMode = e.eMode
    ∧ (e.getDirection).2.u32PositionExtTime = e.u32PositionExtTime
    ∧ (e.getDirection).2.u32PositionExtTimePrev = e.u32PositionExtTimePrev
    ∧ (((e.getDirection).2.getDirection).1 = Direction.NOROTATION) := by
  rcases lt_trichotomy e.i32PositionExtPrev e.i32PositionExt with h | h | h
  · simp [RotaryEncoder.getDirection, h, lt_asymm h, ne_of_lt h, lt_irrefl]
  · simp [RotaryEncoder.getDirection, h, lt_irrefl]
  · simp [RotaryEncoder.getDirection, h, lt_asymm h, (ne_of_lt h).symm, lt_irrefl]

/-- C4: `setPosition(n)` sets both external positions to `n` (so
`getPosition()` then returns `n` exactly), rewrites the internal position to
`n` shifted left by the mode's shift amount (with native `int32` wrap) plus
the preserved low bits — in particular the low `shift` bits of the internal
position are unchanged — and touches neither timestamp. -/
theorem setPosition_spec (e : RotaryEncoder) (n : Int) :
    (e.setPosition n).getPosition = n
    ∧ (e.setPosition n).i32PositionExt = n
    ∧ (e.setPosition n).i32PositionExtPrev = n
    ∧ (e.setPosition n).i32Position
        = i32wrap (n * 2 ^ latchShift e.eMode) + e.i32Position % 2 ^ latchShift e.eMode
    ∧ (e.setPosition n).i32Position % 2 ^ latchShift e.eMode
        = e.i32Position % 2 ^ latchShift e.eMode
    ∧ (e.setPosition n).u32PositionExtTime = e.u32PositionExtTime
    ∧ (e.setPosition n).u32PositionExtTimePrev = e.u32PositionExtTimePrev := by
  rcases e with ⟨mode, old, pos, ext, prev, tl, tp⟩
  rcases mode with _ | _ | _ <;>
    simp [RotaryEncoder.setPosition, RotaryEncoder.getPosition, latchShift,
      int_two_pow_two, int_two_pow_one, i32wrap] <;>
    omega

/-- C2, counterexample: after a single non-latching tick (FOUR0 mode,
raw state 3 → 2, table delta −1) the external position (still 0) is not the
arithmetic right shift of the internal position (−1 ≫ 2 = −1), so the
claimed invariant does not hold after every operation. -/
theorem extPos_shift_invariant_cex :
    ¬ (((RotaryEncoder.init LatchMode.FOUR0).tick 2 0).i32PositionExt
        = asr (((RotaryEncoder.init LatchMode.FOUR0).tick 2 0).i32Position)
            (latchShift LatchMode.FOUR0)) := by
  decide

/-- C2, amended: the equality `externalPosition = internalPosition ≫ shift`
(arithmetic shift, shift = 2 for the FOUR modes and 1 for TWO03) holds
after construction, and after every `tick()` that observes a changed pin
state whose new raw state satisfies the mode's latch condition; a tick to a
non-latch state can leave the external position stale. -/
theorem extPos_shift_after_latch :
    (∀ m : LatchMode,
      (RotaryEncoder.init m).i32PositionExt
        = asr (RotaryEncoder.init m).i32Position (latchShift m))
    ∧ (∀ (e : RotaryEncoder) (c : Fin 4) (t : Nat),
        c ≠ e.i08OldState → isLatchState e.eMode c = true →
        (e.tick c t).i32PositionExt
          = asr ((e.tick c t).i32Position) (latchShift e.eMode)) := by
  constructor
  · intro m
    rcases m with _ | _ | _ <;> simp [RotaryEncoder.init, asr]
  · intro e c t hne hl
    rcases e with ⟨mode, old, pos, ext, prev, tl, tp⟩
    rcases mode with _ | _ | _ <;>
      simp only [isLatchState, decide_eq_true_eq] at hl <;>
      first
      | (subst hl
         simp [RotaryEncoder.tick, (Ne.symm hne), latchShift])
      | (rcases hl with hl | hl <;> subst hl <;>
         simp [RotaryEncoder.tick, (Ne.symm hne), latchShift])

/-- Witness for the amended C2: in FOUR0 mode, a tick from the initial
state to raw state 0 latches, and the invariant holds there. -/
theorem extPos_shift_after_latch_witness :
    ((RotaryEncoder.init LatchMode.FOUR0).tick 0 5).i32PositionExt
      = asr (((RotaryEncoder.init LatchMode.FOUR0).tick 0 5).i32Position)
          (latchShift (RotaryEncoder.init LatchMode.FOUR0).eMode) :=
  extPos_shift_after_latch.2 (RotaryEncoder.init LatchMode.FOUR0) 0 5 (by decide) (by decide)

/-- C8: `getMillisBetweenRotations()` is the unsigned 32-bit modular
difference `lastChangeTime - priorChangeTime` and mutates nothing (it is a
pure function of the state in this model): adding the prior timestamp back
recovers the last timestamp mod 2^32, the result is a `uint32` value, the
two-latches-at-100-and-150 scenario yields 50, and the wrapped scenario
(prior = 0xFFFFFFF0, last = 10, produced by real latching ticks) yields 26. -/
theorem getMillisBetweenRotations_spec (e : RotaryEncoder)
    (hp : e.u32PositionExtTimePrev < 4294967296) :
    ((e.getMillisBetweenRotations + e.u32PositionExtTimePrev) % 4294967296
        = e.u32PositionExtTime % 4294967296)
    ∧ e.getMillisBetweenRotations < 4294967296
    ∧ ((((RotaryEncoder.init LatchMode.FOUR0).tick 0 100).tick 1 0).tick 0 150).getMillisBetweenRotations
        = 50
    ∧ ((((RotaryEncoder.init LatchMode.FOUR0).tick 0 4294967280).tick 1 0).tick 0 10).getMillisBetweenRotations
        = 26 := by
  refine ⟨?_, ?_, by decide, by decide⟩ <;>
    (unfold RotaryEncoder.getMillisBetweenRotations; omega)

/-- Witness for C8 at a concrete state: the freshly constructed decoder. -/
theorem getMillisBetweenRotations_spec_witness :
    (RotaryEncoder.init LatchMode.TWO03).getMillisBetweenRotations < 4294967296 :=
  (getMillisBetweenRotations_spec (RotaryEncoder.init LatchMode.TWO03) (by decide)).2.1

/-- C9: the transition table is antisymmetric under reversing a transition,
and consequently a bounce `a → b → a` (two ticks) restores the internal
position exactly.  The range hypotheses say the stored internal position is
an in-range `int32` value, which holds for every state the code can build. -/
theorem knobdir_antisym_bounce (e : RotaryEncoder) (b : Fin 4) (t1 t2 : Nat)
    (hne : b ≠ e.i08OldState)
    (hlo : -2147483648 ≤ e.i32Position) (hhi : e.i32Position < 2147483648) :
    (∀ p c : Fin 4,
      ci08KNOBDIR ((p.val <<< 2) ||| c.val) = - ci08KNOBDIR ((c.val <<< 2) ||| p.val))
    ∧ ((e.tick b t1).tick e.i08OldState t2).i32Position = e.i32Position := by
  refine ⟨by decide, ?_⟩
  rcases e with ⟨mode, old, pos, ext, prev, tl, tp⟩
  simp only at hne ⊢
  rcases mode with _ | _ | _ <;> fin_cases old <;> fin_cases b <;>
    simp_all [RotaryEncoder.tick, ci08KNOBDIR, i32wrap, asr] <;> omega

/-- Witness for C9: a bounce 3 → 2 → 3 from the initial FOUR0 state. -/
theorem knobdir_antisym_bounce_witness :
    (∀ p c : Fin 4,
      ci08KNOBDIR ((p.val <<< 2) ||| c.val) = - ci08KNOBDIR ((c.val <<< 2) ||| p.val))
    ∧ (((RotaryEncoder.init LatchMode.FOUR0).tick 2 7).tick
          (RotaryEncoder.init LatchMode.FOUR0).i08OldState 9).i32Position
        = (RotaryEncoder.init LatchMode.FOUR0).i32Position :=
  knobdir_antisym_bounce (RotaryEncoder.init LatchMode.FOUR0) 2 7 9
    (by decide) (by decide) (by decide)

/-- C10: a transition that flips both pin bits at once (prev XOR cur = 3)
contributes a zero table delta, so the internal position is unchanged; the
raw state is still overwritten with the new sample, and if the new sample
satisfies the latch condition the latch fires exactly as for a valid
transition (external position recomputed as the shifted internal position,
timestamp history shifted), while otherwise external position and
timestamps stay untouched. -/
theorem double_flip_tick (e : RotaryEncoder) (c : Fin 4) (t : Nat)
    (hflip : e.i08OldState.val ^^^ c.val = 3)
    (hlo : -2147483648 ≤ e.i32Position) (hhi : e.i32Position < 2147483648) :
    (e.tick c t).i32Position = e.i32Position
    ∧ (e.tick c t).i08OldState = c
    ∧ (isLatchState e.eMode c = true →
        (e.tick c t).i32PositionExt = asr e.i32Position (latchShift e.eMode)
        ∧ (e.tick c t).u32PositionExtTimePrev = e.u32PositionExtTime
        ∧ (e.tick c t).u32PositionExtTime = t % 4294967296)
    ∧ (isLatchState e.eMode c = false →
        (e.tick c t).i32PositionExt = e.i32PositionExt
        ∧ (e.tick c t).u32PositionExtTimePrev = e.u32PositionExtTimePrev
        ∧ (e.tick c t).u32PositionExtTime = e.u32PositionExtTime) := by
  rcases e with ⟨mode, old, pos, ext, prev, tl, tp⟩
  simp only at hflip hlo hhi ⊢
  rcases mode with _ | _ | _ <;> fin_cases old <;> fin_cases c <;>
    simp_all [RotaryEncoder.tick, isLatchState, latchShift, ci08KNOBDIR,
      i32wrap, asr, int_two_pow_two, int_two_pow_one] <;> omega

/-- Witness for C10: the both-bits flip 3 → 0 in FOUR0 mode, where the new
state 0 is the latch state. -/
theorem double_flip_tick_witness :
    ((RotaryEncoder.init LatchMode.FOUR0).tick 0 11).i32Position
        = (RotaryEncoder.init LatchMode.FOUR0).i32Position
    ∧ ((RotaryEncoder.init LatchMode.FOUR0).tick 0 11).i08OldState = 0
    ∧ (isLatchState LatchMode.FOUR0 0 = true →
        ((RotaryEncoder.init LatchMode.FOUR0).tick 0 11).i32PositionExt
            = asr (RotaryEncoder.init LatchMode.FOUR0).i32Position (latchShift LatchMode.FOUR0)
        ∧ ((RotaryEncoder.init LatchMode.FOUR0).tick 0 11).u32PositionExtTimePrev
            = (RotaryEncoder.init LatchMode.FOUR0).u32PositionExtTime
        ∧ ((RotaryEncoder.init LatchMode.FOUR0).tick 0 11).u32PositionExtTime
            = 11 % 4294967296)
    ∧ (isLatchState LatchMode.FOUR0 0 = false →
        ((RotaryEncoder.init LatchMode.FOUR0).tick 0 11).i32PositionExt
            = (RotaryEncoder.init LatchMode.FOUR0).i32PositionExt
        ∧ ((RotaryEncoder.init LatchMode.FOUR0).tick 0 11).u32PositionExtTimePrev
            = (RotaryEncoder.init LatchMode.FOUR0).u32PositionExtTimePrev
        ∧ ((RotaryEncoder.init LatchMode.FOUR0).tick 0 11).u32PositionExtTime
            = (RotaryEncoder.init LatchMode.FOUR0).u32PositionExtTime) :=
  double_flip_tick (RotaryEncoder.init LatchMode.FOUR0) 0 11
    (by decide) (by decide) (by decide)

/-- Classification of the 4-step single-bit cycles 0 → a → b → c → 0: the
only such cycle whose table deltas sum to +4 is 0 → 2 → 3 → 1 → 0, and the
only one summing to −4 is 0 → 1 → 3 → 2 → 0. -/
theorem detent_cycle_classify :
    ∀ a b c : Fin 4,
      validStep 0 a → validStep a b → validStep b c → validStep c 0 →
      ((ci08KNOBDIR (a.val ||| (0 <<< 2)) + ci08KNOBDIR (b.val ||| (a.val <<< 2))
          + ci08KNOBDIR (c.val ||| (b.val <<< 2)) + ci08KNOBDIR (0 ||| (c.val <<< 2)) = 4 →
        a = 2 ∧ b = 3 ∧ c = 1)
      ∧ (ci08KNOBDIR (a.val ||| (0 <<< 2)) + ci08KNOBDIR (b.val ||| (a.val <<< 2))
          + ci08KNOBDIR (c.val ||| (b.val <<< 2)) + ci08KNOBDIR (0 ||| (c.val <<< 2)) = -4 →
        a = 1 ∧ b = 3 ∧ c = 2)) := by
  decide

/-- C6: in FOUR0 mode, from a latched state with raw state 0 (so the
external position is the shifted internal position) and with the internal
position far enough from the `int32` boundaries that the four ±1 steps do
not wrap, a sequence of 4 ticks along valid single-bit transitions ending
back at raw state 0 moves the external position by exactly +1 when the four
table deltas sum to +4, and by exactly −1 when they sum to −4. -/
theorem four0_detent_cycle (e : RotaryEncoder) (a b c : Fin 4) (t1 t2 t3 t4 : Nat)
    (hm : e.eMode = LatchMode.FOUR0) (h0 : e.i08OldState = 0)
    (hinv : e.i32PositionExt = asr e.i32Position 2)
    (hlo : -2147483644 ≤ e.i32Position) (hhi : e.i32Position ≤ 2147483643)
    (s1 : validStep 0 a) (s2 : validStep a b) (s3 : validStep b c) (s4 : validStep c 0) :
    (ci08KNOBDIR (a.val ||| (0 <<< 2)) + ci08KNOBDIR (b.val ||| (a.val <<< 2))
        + ci08KNOBDIR (c.val ||| (b.val <<< 2)) + ci08KNOBDIR (0 ||| (c.val <<< 2)) = 4 →
      ((((e.tick a t1).tick b t2).tick c t3).tick 0 t4).i32PositionExt
        = e.i32PositionExt + 1)
    ∧ (ci08KNOBDIR (a.val ||| (0 <<< 2)) + ci08KNOBDIR (b.val ||| (a.val <<< 2))
        + ci08KNOBDIR (c.val ||| (b.val <<< 2)) + ci08KNOBDIR (0 ||| (c.val <<< 2)) = -4 →
      ((((e.tick a t1).tick b t2).tick c t3).tick 0 t4).i32PositionExt
        = e.i32PositionExt - 1) := by
  rcases e with ⟨mode, old, pos, ext, prev, tl, tp⟩
  simp only at hm h0 hinv hlo hhi ⊢
  subst hm; subst h0
  constructor
  · intro hsum
    obtain ⟨ha, hb, hc⟩ := (detent_cycle_classify a b c s1 s2 s3 s4).1 hsum
    subst ha; subst hb; subst hc
    subst hinv
    simp [RotaryEncoder.tick, ci08KNOBDIR, i32wrap, asr, int_two_pow_two]
    omega
  · intro hsum
    obtain ⟨ha, hb, hc⟩ := (detent_cycle_classify a b c s1 s2 s3 s4).2 hsum
    subst ha; subst hb; subst hc
    subst hinv
    simp [RotaryEncoder.tick, ci08KNOBDIR, i32wrap, asr, int_two_pow_two]
    omega

/-- Witness for C6: the two concrete detent cycles from the latched state
reached by one latching tick from the initial FOUR0 state. -/
theorem four0_detent_cycle_witness :
    (ci08KNOBDIR ((2:Fin 4).val ||| (0 <<< 2)) + ci08KNOBDIR ((3:Fin 4).val ||| ((2:Fin 4).val <<< 2))
        + ci08KNOBDIR ((1:Fin 4).val ||| ((3:Fin 4).val <<< 2)) + ci08KNOBDIR (0 ||| ((1:Fin 4).val <<< 2)) = 4 →
      ((((((RotaryEncoder.init LatchMode.FOUR0).tick 0 1).tick 2 2).tick 3 3).tick 1 4).tick 0 5).i32PositionExt
        = ((RotaryEncoder.init LatchMode.FOUR0).tick 0 1).i32PositionExt + 1)
    ∧ (ci08KNOBDIR ((2:Fin 4).val ||| (0 <<< 2)) + ci08KNOBDIR ((3:Fin 4).val ||| ((2:Fin 4).val <<< 2))
        + ci08KNOBDIR ((1:Fin 4).val ||| ((3:Fin 4).val <<< 2)) + ci08KNOBDIR (0 ||| ((1:Fin 4).val <<< 2)) = -4 →
      ((((((RotaryEncoder.init LatchMode.FOUR0).tick 0 1).tick 2 2).tick 3 3).tick 1 4).tick 0 5).i32PositionExt
        = ((RotaryEncoder.init LatchMode.FOUR0).tick 0 1).i32PositionExt - 1) :=
  four0_detent_cycle ((RotaryEncoder.init LatchMode.FOUR0).tick 0 1) 2 3 1 2 3 4 5
    (by decide) (by decide) (by decide) (by decide) (by decide)
    (by decide) (by decide) (by decide) (by decide)
